import Mathlib

/-!
Verification of the indicator engine (`core/indicators.py`) and the
question guard (`core/ai_analyzer.py`) of the stock-ai-app repository,
via a shallow embedding in Lean 4.

Conventions of the embedding:
* pandas numeric cells are modelled by `ℚ`; Python `None` and the float
  `NaN` produced by pandas reductions over empty data are modelled by the
  dedicated constructors of `PyVal`.  Division by zero (which yields an
  IEEE infinity in the source) follows the `ℚ` convention `x / 0 = 0`;
  no claim below depends on that corner.
* `series.std()` (sample standard deviation, `ddof = 1`) is represented
  by its square, the sample variance: `ℚ` has no exact square roots, and
  two nonnegative standard deviations are equal exactly when their
  squares are, so every statement about which window / guard condition
  feeds the standard deviation is faithfully expressed on the variance.
* Python strings are Lean `String`s (`len` counts Unicode code points in
  both).  The `\s` class of `re` is modelled by the six ASCII whitespace
  characters; `str.lower` is modelled as ASCII lowercasing (the financial
  keywords the code lowercases against are plain ASCII).
-/

namespace StockAI

/-- A pandas cell as seen by the app: a number, Python `None`, or the
float `NaN` that pandas reductions return on empty input. -/
inductive PyVal where
  | none : PyVal
  | nan : PyVal
  | num : ℚ → PyVal
deriving DecidableEq, Repr

/-- One row of the price-history DataFrame (`Open`/`Volume` are never
read by `compute_indicators`, so only the read columns are modelled). -/
structure Bar where
  close : ℚ
  high : ℚ
  low : ℚ
deriving DecidableEq, Repr

/-- The price-history DataFrame: an ordered list of rows plus presence
flags for the `High` and `Low` columns (`"High" in hist` in the source);
the `Close` column is always present (the code indexes it unguarded). -/
structure PriceFrame where
  bars : List Bar
  hasHigh : Bool
  hasLow : Bool
deriving DecidableEq, Repr

def closes (f : PriceFrame) : List ℚ := f.bars.map Bar.close

def highs (f : PriceFrame) : List ℚ := f.bars.map Bar.high

def lows (f : PriceFrame) : List ℚ := f.bars.map Bar.low

/-- `series.iloc[-k]`: the `k`-th element from the end.  Total with a
junk value `0`; every use in `compute_indicators` is guarded by a length
check that keeps the index in range. -/
def ilocNeg (l : List ℚ) (k : Nat) : ℚ := l.getD (l.length - k) 0

/-- `series.tail(n)`: the last `n` elements (the whole list when it is
shorter than `n`). -/
def pdTail (l : List ℚ) (n : Nat) : List ℚ := l.drop (l.length - n)

/-- `series.max()`: pandas returns `NaN` on an empty series. -/
def pdMax (l : List ℚ) : PyVal :=
  match l.max? with
  | Option.some m => PyVal.num m
  | Option.none => PyVal.nan

/-- `series.min()`: pandas returns `NaN` on an empty series. -/
def pdMin (l : List ℚ) : PyVal :=
  match l.min? with
  | Option.some m => PyVal.num m
  | Option.none => PyVal.nan

/-- `series.pct_change()` restricted to its non-`NaN` entries: for
`[c₀, …, c_{n-1}]` the list `[c₁/c₀ - 1, …, c_{n-1}/c_{n-2} - 1]`
(pandas puts `NaN` at position 0 and `std` skips it). -/
def pctChange : List ℚ → List ℚ
  | a :: b :: rest => (b / a - 1) :: pctChange (b :: rest)
  | _ => []

def qMean (l : List ℚ) : ℚ := l.sum / (l.length : ℚ)

/-- Sample variance (`ddof = 1`), the square of `series.std()`.  Total
with the `ℚ` convention `x / 0 = 0`; `compute_indicators` only applies it
to lists of length ≥ 2. -/
def sampleVar (l : List ℚ) : ℚ :=
  ((l.map (fun x => (x - qMean l) ^ 2)).sum) / ((l.length : ℚ) - 1)

/-- The `info` dict: `dict.get` yields `None` for an absent key. -/
structure Info where
  trailingPE : Option ℚ
  forwardPE : Option ℚ
  priceToBook : Option ℚ
deriving DecidableEq, Repr

def optToPy : Option ℚ → PyVal
  | Option.some q => PyVal.num q
  | Option.none => PyVal.none

structure Momentum where
  oneMonthReturn : PyVal
  threeMonthReturn : PyVal
  high3m : PyVal
  low3m : PyVal
  volatility3m : PyVal
deriving DecidableEq, Repr

structure Valuation where
  latestPrice : PyVal
  trailingPE : PyVal
  forwardPE : PyVal
  priceToBook : PyVal
deriving DecidableEq, Repr

structure Indicators where
  valuation : Valuation
  momentum : Momentum
deriving DecidableEq, Repr

/-- `latest_price = hist["Close"].iloc[-1] if not hist.empty else None`. -/
def latestPriceOf (hist : PriceFrame) : PyVal :=
  if hist.bars.isEmpty then PyVal.none else PyVal.num (ilocNeg (closes hist) 1)

/-- Shallow embedding of `compute_indicators` from `core/indicators.py`.
The `volatility3m` field carries the square of the source's
`hist["Close"].pct_change().std()` (see the header note on `ℚ` and
square roots); the match on `latest_price` mirrors the source's use of
the `latest_price` variable inside the ≥ 22 / ≥ 66 branches (where the
series is necessarily nonempty, so the variable is numeric). -/
def compute_indicators (hist : PriceFrame) (info : Info) : Indicators :=
  let latest_price := latestPriceOf hist
  { valuation :=
      { latestPrice := latest_price
        trailingPE := optToPy info.trailingPE
        forwardPE := optToPy info.forwardPE
        priceToBook := optToPy info.priceToBook }
    momentum :=
      { oneMonthReturn :=
          if 22 ≤ hist.bars.length then
            match latest_price with
            | PyVal.num x => PyVal.num (x / ilocNeg (closes hist) 22 - 1)
            | v => v
          else PyVal.none
        threeMonthReturn :=
          if 66 ≤ hist.bars.length then
            match latest_price with
            | PyVal.num x => PyVal.num (x / ilocNeg (closes hist) 66 - 1)
            | v => v
          else PyVal.none
        high3m := if hist.hasHigh then pdMax (pdTail (highs hist) 66) else PyVal.none
        low3m := if hist.hasLow then pdMin (pdTail (lows hist) 66) else PyVal.none
        volatility3m :=
          if 2 < hist.bars.length then
            PyVal.num (sampleVar (pctChange (closes hist)))
          else PyVal.none } }

/-- Spec, §4.1/§8: `oneMonthReturn` is null with fewer than 22 bars and
equals `close[-1]/close[-22] - 1` with at least 22 bars. -/
def oneMonthReturnSpec (close : List ℚ) : PyVal :=
  if close.length < 22 then PyVal.none
  else PyVal.num (ilocNeg close 1 / ilocNeg close 22 - 1)

/-- Spec, §4.1/§8: `threeMonthReturn` is null with fewer than 66 bars and
equals `close[-1]/close[-66] - 1` with at least 66 bars. -/
def threeMonthReturnSpec (close : List ℚ) : PyVal :=
  if close.length < 66 then PyVal.none
  else PyVal.num (ilocNeg close 1 / ilocNeg close 66 - 1)

/-- Spec, §4.1: `volatility3m` is the sample standard deviation of the
percentage change of Close over the *entire* supplied series (no 66-bar
window) when more than 2 bars exist, null otherwise — represented, as
everywhere in this file, by its square. -/
def volatility3mSpec (close : List ℚ) : PyVal :=
  if 2 < close.length then PyVal.num (sampleVar (pctChange close)) else PyVal.none

/-! ## Question guard (`core/ai_analyzer.py`) -/

/-- The characters of the `re` class `\s` (ASCII part; see header). -/
def isPySpace (c : Char) : Bool :=
  c = ' ' || c = '\t' || c = '\n' || c = '\r' || c = '\x0B' || c = '\x0C'

/-- `str.replace(a, b)` for single characters. -/
def replaceChar (a b : Char) (l : List Char) : List Char :=
  l.map (fun c => if c = a then b else c)

/-- `re.sub(r"\s+", " ", ·)`: each maximal whitespace run becomes one
space.  The boolean records whether the previous character was part of a
whitespace run. -/
def collapseAux : Bool → List Char → List Char
  | _, [] => []
  | inRun, c :: cs =>
    if isPySpace c then
      if inRun then collapseAux true cs else ' ' :: collapseAux true cs
    else c :: collapseAux false cs

def collapseWs (l : List Char) : List Char := collapseAux false l

/-- `str.strip()`: drop leading and trailing whitespace. -/
def pyStrip (l : List Char) : List Char :=
  ((l.dropWhile isPySpace).reverse.dropWhile isPySpace).reverse

/-- Shallow embedding of `clean_text`: replace `\r` and `\n` by spaces,
collapse whitespace runs to single spaces, strip the ends. -/
def clean_text (s : String) : String :=
  if s = "" then ""
  else ⟨pyStrip (collapseWs (replaceChar '\n' ' ' (replaceChar '\r' ' ' s.toList)))⟩

/-- The character class `[A-Za-z0-9一-鿿]` of the gibberish
check: Latin letters, digits, CJK ideographs. -/
def isAlnumCJK (c : Char) : Bool :=
  ('A' ≤ c && c ≤ 'Z') || ('a' ≤ c && c ≤ 'z') || ('0' ≤ c && c ≤ '9') ||
    (0x4e00 ≤ c.toNat && c.toNat ≤ 0x9fff)

/-- `len(re.findall(r"[A-Za-z0-9一-鿿]", q))`. -/
def alnumCJKCount (q : String) : Nat := (q.toList.filter isAlnumCJK).length

/-- The gibberish test `len(alpha_num_zh) / len(q) < 0.35` of
`review_question` (float division modelled in `ℚ`). -/
def gibberishCond (q : String) : Prop :=
  (alnumCJKCount q : ℚ) / (q.length : ℚ) < 35 / 100

/-- `gibberishCond` is decided by the equivalent integer comparison, so
that concrete guard runs evaluate inside the kernel. -/
instance gibberishCondDecidable (q : String) : Decidable (gibberishCond q) :=
  if h : q.length = 0 then
    isTrue (by
      have hl : q.toList = [] := List.length_eq_zero.mp h
      have hc : alnumCJKCount q = 0 := by unfold alnumCJKCount; rw [hl]; rfl
      simp only [gibberishCond, hc, h, Nat.cast_zero, zero_div]
      norm_num)
  else
    decidable_of_iff (100 * alnumCJKCount q < 35 * q.length) (by
      have hq : (0 : ℚ) < (q.length : ℚ) := by
        exact_mod_cast Nat.pos_of_ne_zero h
      rw [gibberishCond, div_lt_div_iff₀ hq (by norm_num : (0 : ℚ) < 100)]
      constructor
      · intro hlt
        have h100 : (100 : ℚ) * (alnumCJKCount q : ℚ) < 35 * (q.length : ℚ) := by
          exact_mod_cast hlt
        linarith
      · intro hlt
        have h100 : (100 : ℚ) * (alnumCJKCount q : ℚ) < 35 * (q.length : ℚ) := by
          linarith
        exact_mod_cast h100)

/-- `_FIN_KW_ZH`. -/
def finKwZH : List String :=
  ["營收", "獲利", "毛利", "淨利", "成長", "估值", "本益比", "股價",
   "股息", "配息", "現金流", "財報", "季度", "展望", "風險"]

/-- `_FIN_KW_EN`. -/
def finKwEN : List String :=
  ["revenue", "profit", "margin", "guidance", "valuation", "dividend",
   "eps", "cash flow", "earnings", "quarter", "risk", "growth"]

def startsWithL : List Char → List Char → Bool
  | [], _ => true
  | _ :: _, [] => false
  | a :: as, b :: bs => (a = b) && startsWithL as bs

def occursIn (pat : List Char) : List Char → Bool
  | [] => startsWithL pat []
  | c :: rest => startsWithL pat (c :: rest) || occursIn pat rest

/-- Python `kw in q` (substring containment). -/
def strContains (hay pat : String) : Bool := occursIn pat.toList hay.toList

/-- `str.lower()` (ASCII part; the English keywords are ASCII). -/
def asciiLower (s : String) : String := ⟨s.toList.map Char.toLower⟩

/-- The finance-relevance test of step 3:
`any(kw in q for kw in _FIN_KW_ZH) or any(kw in q.lower() for kw in _FIN_KW_EN)`. -/
def hasFinKw (q : String) : Bool :=
  finKwZH.any (fun kw => strContains q kw) ||
    finKwEN.any (fun kw => strContains (asciiLower q) kw)

def isDigitCh (c : Char) : Bool := '0' ≤ c && c ≤ '9'

/-- `_YEAR_RE.findall(q)` followed by `int(·)`, for the pattern
`(19|20)\d{2}`.  `re.findall` scans left to right, reports
non-overlapping matches, and — because the pattern has exactly one
capture group — returns the text of the *group*, i.e. `"19"` or `"20"`,
not the full four-digit match. -/
def findYearGroups : List Char → List Nat
  | '1' :: '9' :: c3 :: c4 :: rest =>
    if isDigitCh c3 && isDigitCh c4 then 19 :: findYearGroups rest
    else findYearGroups ('9' :: c3 :: c4 :: rest)
  | '2' :: '0' :: c3 :: c4 :: rest =>
    if isDigitCh c3 && isDigitCh c4 then 20 :: findYearGroups rest
    else findYearGroups ('0' :: c3 :: c4 :: rest)
  | _ :: rest => findYearGroups rest
  | [] => []

/-- `years_in_q` for a cleaned question. -/
def yearsInQ (q : String) : List Nat := findYearGroups q.toList

/-- The price-history argument, reduced to what `review_question` reads:
for each index entry, its `year` attribute (`None` when absent). -/
structure GuardHistory where
  index : List (Option Nat)
deriving DecidableEq, Repr

/-- The `income_q` DataFrame, reduced to what `review_question` reads:
emptiness, presence of the `period` column, and for each period entry
its `year` attribute (`None` for entries without one, e.g. plain string
labels — for those, `getattr(p, "year", None)` returns `None` without
raising, so the regex fallback in the `except` arm is unreachable). -/
structure GuardIncome where
  isEmpty : Bool
  hasPeriodCol : Bool
  period : List (Option Nat)
deriving DecidableEq, Repr

/-- The financials argument (`None` / empty dict / non-dict collapse to
`Option.none`, all of which skip the period scan). -/
structure GuardFinancials where
  income_q : Option GuardIncome
deriving DecidableEq, Repr

/-- Python truthiness `if y:` applied to an optional year. -/
def truthyYears (l : List (Option Nat)) : List Nat :=
  l.filterMap (fun y? =>
    match y? with
    | Option.some y => if y ≠ 0 then Option.some y else Option.none
    | Option.none => Option.none)

/-- `data_years` as accumulated by `review_question`. -/
def dataYears (price_history : Option GuardHistory)
    (financials : Option GuardFinancials) : List Nat :=
  (match price_history with
   | Option.some h => truthyYears h.index
   | Option.none => []) ++
  (match financials with
   | Option.some fs =>
     match fs.income_q with
     | Option.some inc =>
       if !inc.isEmpty && inc.hasPeriodCol then truthyYears inc.period else []
     | Option.none => []
   | Option.none => [])

/-- `min` of a nonempty list (junk value 0 on `[]`, never used there). -/
def listMinD : List Nat → Nat
  | [] => 0
  | x :: xs => xs.foldl Nat.min x

/-- `max` of a nonempty list (junk value 0 on `[]`, never used there). -/
def listMaxD : List Nat → Nat
  | [] => 0
  | x :: xs => xs.foldl Nat.max x

def insertSorted (x : Nat) : List Nat → List Nat
  | [] => [x]
  | y :: ys => if x ≤ y then x :: y :: ys else y :: insertSorted x ys

/-- `sorted(set(l))`: distinct values in increasing order. -/
def sortedDedup (l : List Nat) : List Nat := (l.eraseDups).foldr insertSorted []

/-- Python `str` of a list of ints, as interpolated by the f-string. -/
def pyListRepr (l : List Nat) : String :=
  "[" ++ String.intercalate ", " (l.map toString) ++ "]"

def msgEmpty : String := "❌ 問題內容是空的，請具體輸入想分析的重點或疑問。"

def msgTooShort : String :=
  "❌ 問題太短了，請再具體一些（例如：想看哪一段期間、估值、財報或風險？）。"

def msgGibberish : String :=
  "❌ 這個問題看起來像是隨機字元或無法判讀的內容，請重新敘述你的問題。"

def msgNoKw : String :=
  "⚠ 這個問題沒有明顯的財經 / 股價 / 財報關鍵字，我會盡量從一般角度回答，但也可能提醒你這個工具主要是用來做股票與財報分析。"

def hintNoKw : String :=
  "若使用者提問與股票 / 財報 /金融無直接關聯，請先說明本工具主要用途，再視情況簡要回答；若完全無關，建議禮貌回覆無法回答。"

/-- The year-range warning, with `sorted(set(out_of_range))`, `min_y`,
`max_y` interpolated as in the source f-string. -/
def msgYears (oor : List Nat) (minY maxY : Nat) : String :=
  "⚠ 問題中提到的年份 " ++ pyListRepr (sortedDedup oor) ++
    " 超出目前資料範圍 （約 " ++ toString minY ++ " ~ " ++ toString maxY ++
    "），回答時會盡量以可取得的年份說明，並提醒這一點。"

def hintYears : String :=
  "使用者問題涉及資料範圍以外的年份時，請先明確說明資料僅涵蓋的區間，再依現有資料做推論；對於沒有資料的年份，不要虛構具體數字或事件。"

/-- Steps 3–4 of `review_question`: the accumulated `warn_msgs` and
`system_hints` lists for an already-cleaned question `q`. -/
def guardWarnings (q : String) (price_history : Option GuardHistory)
    (financials : Option GuardFinancials) : List String × List String :=
  let base : List String × List String :=
    if hasFinKw q then ([], []) else ([msgNoKw], [hintNoKw])
  let yq := yearsInQ q
  let dy := dataYears price_history financials
  if !dy.isEmpty && !yq.isEmpty then
    let minY := listMinD dy
    let maxY := listMaxD dy
    let oor := yq.filter (fun y => y < minY || maxY < y)
    if !oor.isEmpty then
      (base.1 ++ [msgYears oor minY maxY], base.2 ++ [hintYears])
    else base
  else base

/-- The guard's result dict. -/
structure GuardVerdict where
  level : String
  reason : String
  message : String
  system_hint : String
deriving DecidableEq, Repr

/-- Shallow embedding of `review_question` from `core/ai_analyzer.py`. -/
def review_question (question symbol : String)
    (price_history : Option GuardHistory)
    (financials : Option GuardFinancials) : GuardVerdict :=
  let q := clean_text question
  if q = "" then ⟨"reject", "empty", msgEmpty, ""⟩
  else if q.length ≤ 3 then ⟨"reject", "too_short", msgTooShort, ""⟩
  else if gibberishCond q then ⟨"reject", "gibberish", msgGibberish, ""⟩
  else
    let w := guardWarnings q price_history financials
    if w.1.isEmpty then ⟨"ok", "pass", "", ""⟩
    else ⟨"warn", "warn", String.intercalate "\n\n" w.1, String.intercalate "\n" w.2⟩

/-! ## Helper lemmas -/

theorem string_len_zero {s : String} (h : s.length = 0) : s = "" := by
  cases s with
  | mk data =>
    cases data with
    | nil => rfl
    | cons c cs => simp [String.length] at h

theorem closes_length (hist : PriceFrame) : (closes hist).length = hist.bars.length := by
  simp [closes]

theorem bars_not_empty {hist : PriceFrame} {n : Nat} (hn : 0 < n)
    (h : n ≤ hist.bars.length) : hist.bars.isEmpty = false := by
  cases hb : hist.bars with
  | nil => rw [hb] at h; simp at h; omega
  | cons a l => simp

/-- In the region where all three reject checks pass, `review_question`
returns the warning-driven verdict. -/
theorem review_question_pass_region (question symbol : String)
    (ph : Option GuardHistory) (fin : Option GuardFinancials)
    (hne : clean_text question ≠ "")
    (h3 : ¬ (clean_text question).length ≤ 3)
    (hg : ¬ gibberishCond (clean_text question)) :
    review_question question symbol ph fin =
      (if (guardWarnings (clean_text question) ph fin).1.isEmpty then
        (⟨"ok", "pass", "", ""⟩ : GuardVerdict)
      else
        ⟨"warn", "warn",
          String.intercalate "\n\n" (guardWarnings (clean_text question) ph fin).1,
          String.intercalate "\n" (guardWarnings (clean_text question) ph fin).2⟩) := by
  unfold review_question
  simp [hne, h3, hg]

/-! ## Claims -/

/-- C1: For every price series with fewer than 22 bars,
`compute_indicators` returns `oneMonthReturn` null; with at least 22
bars it returns `close[-1]/close[-22] - 1`. -/
theorem oneMonthReturn_eq_spec (hist : PriceFrame) (info : Info) :
    (compute_indicators hist info).momentum.oneMonthReturn
      = oneMonthReturnSpec (closes hist) := by
  unfold compute_indicators oneMonthReturnSpec latestPriceOf
  by_cases h : 22 ≤ hist.bars.length
  · have hne := bars_not_empty (by omega) h
    simp [h, hne, closes_length, Nat.not_lt.mpr h]
  · simp [h, closes_length, Nat.lt_of_not_le h]

/-- C2: For every price series with fewer than 66 bars,
`compute_indicators` returns `threeMonthReturn` null; with at least 66
bars it returns `close[-1]/close[-66] - 1`. -/
theorem threeMonthReturn_eq_spec (hist : PriceFrame) (info : Info) :
    (compute_indicators hist info).momentum.threeMonthReturn
      = threeMonthReturnSpec (closes hist) := by
  unfold compute_indicators threeMonthReturnSpec latestPriceOf
  by_cases h : 66 ≤ hist.bars.length
  · have hne := bars_not_empty (by omega) h
    simp [h, hne, closes_length, Nat.not_lt.mpr h]
  · simp [h, closes_length, Nat.lt_of_not_le h]

/-- C3: With more than 2 bars, `volatility3m` is the sample standard
deviation (represented by its square) of the bar-to-bar percentage
change of Close over the *entire* supplied series; with 2 or fewer bars
it is null. -/
theorem volatility3m_eq_spec (hist : PriceFrame) (info : Info) :
    (compute_indicators hist info).momentum.volatility3m
      = volatility3mSpec (closes hist) := by
  unfold compute_indicators volatility3mSpec
  rw [closes_length]

/-- C4 counterexample: on the empty series whose `High` column is
present, `high3m` is the pandas `NaN` of an empty reduction, not null. -/
theorem empty_frame_high3m_not_null :
    (compute_indicators ⟨[], true, true⟩
        ⟨Option.none, Option.none, Option.none⟩).momentum.high3m = PyVal.nan ∧
    PyVal.nan ≠ PyVal.none := by
  decide

/-- C4 (amended): for every empty price series, `latestPrice`,
`oneMonthReturn`, `threeMonthReturn` and `volatility3m` are null, and
`high3m` (resp. `low3m`) is null when the `High` (`Low`) column is
absent but `NaN` when the column is present. -/
theorem empty_frame_fields (hh hl : Bool) (info : Info) :
    (compute_indicators ⟨[], hh, hl⟩ info).valuation.latestPrice = PyVal.none ∧
    (compute_indicators ⟨[], hh, hl⟩ info).momentum.oneMonthReturn = PyVal.none ∧
    (compute_indicators ⟨[], hh, hl⟩ info).momentum.threeMonthReturn = PyVal.none ∧
    (compute_indicators ⟨[], hh, hl⟩ info).momentum.volatility3m = PyVal.none ∧
    (compute_indicators ⟨[], hh, hl⟩ info).momentum.high3m
      = (if hh then PyVal.nan else PyVal.none) ∧
    (compute_indicators ⟨[], hh, hl⟩ info).momentum.low3m
      = (if hl then PyVal.nan else PyVal.none) := by
  cases hh <;> cases hl <;> exact ⟨rfl, rfl, rfl, rfl, rfl, rfl⟩

/-- C5: `review_question` rejects only with reason `empty`, `too_short`
or `gibberish`; any non-reject outcome is `ok` with empty message and
hint when no warning accumulated, else `warn` with the warning messages
joined by blank lines and the hints joined by newlines. -/
theorem review_question_outcomes (question symbol : String)
    (ph : Option GuardHistory) (fin : Option GuardFinancials) :
    ((review_question question symbol ph fin).level = "reject" →
      (review_question question symbol ph fin).reason = "empty" ∨
      (review_question question symbol ph fin).reason = "too_short" ∨
      (review_question question symbol ph fin).reason = "gibberish") ∧
    ((review_question question symbol ph fin).level ≠ "reject" →
      (if (guardWarnings (clean_text question) ph fin).1.isEmpty then
        review_question question symbol ph fin = ⟨"ok", "pass", "", ""⟩
      else
        review_question question symbol ph fin =
          ⟨"warn", "warn",
            String.intercalate "\n\n" (guardWarnings (clean_text question) ph fin).1,
            String.intercalate "\n" (guardWarnings (clean_text question) ph fin).2⟩)) := by
  by_cases h1 : clean_text question = ""
  · constructor
    · intro _
      left
      unfold review_question
      simp [h1]
    · intro hlev
      exfalso
      apply hlev
      unfold review_question
      simp [h1]
  · by_cases h2 : (clean_text question).length ≤ 3
    · constructor
      · intro _
        right; left
        unfold review_question
        simp [h1, h2]
      · intro hlev
        exfalso
        apply hlev
        unfold review_question
        simp [h1, h2]
    · by_cases h3 : gibberishCond (clean_text question)
      · constructor
        · intro _
          right; right
          unfold review_question
          simp [h1, h2, h3]
        · intro hlev
          exfalso
          apply hlev
          unfold review_question
          simp [h1, h2, h3]
      · rw [review_question_pass_region question symbol ph fin h1 h2 h3]
        by_cases hw : (guardWarnings (clean_text question) ph fin).1.isEmpty
        · simp [hw]
        · simp [hw]

/-- C5 witness: a rejected input has one of the three reject reasons, and
an input with a finance keyword and no year token passes with the `ok`
verdict. -/
theorem review_question_outcomes_check :
    ((review_question "" "X" Option.none Option.none).reason = "empty" ∨
      (review_question "" "X" Option.none Option.none).reason = "too_short" ∨
      (review_question "" "X" Option.none Option.none).reason = "gibberish") ∧
    review_question "本益比如何" "X" Option.none Option.none = ⟨"ok", "pass", "", ""⟩ := by
  constructor
  · exact (review_question_outcomes "" "X" Option.none Option.none).1 (by decide)
  · have h := (review_question_outcomes "本益比如何" "X" Option.none Option.none).2 (by decide)
    rwa [if_pos (by decide)] at h

/-- C6: a question whose cleaned text is empty is rejected with reason
`empty`; a nonempty cleaned text of at most 3 characters is rejected
with reason `too_short`. -/
theorem review_question_empty_too_short (question symbol : String)
    (ph : Option GuardHistory) (fin : Option GuardFinancials) :
    ((clean_text question).length = 0 →
      review_question question symbol ph fin = ⟨"reject", "empty", msgEmpty, ""⟩) ∧
    ((clean_text question).length ≠ 0 → (clean_text question).length ≤ 3 →
      review_question question symbol ph fin = ⟨"reject", "too_short", msgTooShort, ""⟩) := by
  constructor
  · intro h0
    have hq : clean_text question = "" := string_len_zero h0
    unfold review_question
    simp [hq]
  · intro h1 h3
    have hne : clean_text question ≠ "" := by
      intro he
      exact h1 (by rw [he]; rfl)
    unfold review_question
    simp [hne, h3]

/-- C6 witness: the empty input and the input `"ab"`. -/
theorem review_question_empty_too_short_check :
    review_question "" "X" Option.none Option.none = ⟨"reject", "empty", msgEmpty, ""⟩ ∧
    review_question "ab" "X" Option.none Option.none = ⟨"reject", "too_short", msgTooShort, ""⟩ :=
  ⟨(review_question_empty_too_short "" "X" Option.none Option.none).1 (by decide),
   (review_question_empty_too_short "ab" "X" Option.none Option.none).2 (by decide) (by decide)⟩

/-- C7: past the empty and length checks, the verdict is
`reject`/`gibberish` exactly when the count of Latin letters, digits and
CJK ideographs divided by the cleaned length falls below 0.35. -/
theorem review_question_gibberish_iff (question symbol : String)
    (ph : Option GuardHistory) (fin : Option GuardFinancials)
    (h : 3 < (clean_text question).length) :
    ((review_question question symbol ph fin).level = "reject" ∧
      (review_question question symbol ph fin).reason = "gibberish") ↔
      gibberishCond (clean_text question) := by
  have hne : clean_text question ≠ "" := by
    intro he
    rw [he] at h
    simp [String.length] at h
  have h3 : ¬ (clean_text question).length ≤ 3 := Nat.not_le.mpr h
  by_cases hg : gibberishCond (clean_text question)
  · constructor
    · intro _
      exact hg
    · intro _
      unfold review_question
      simp [hne, h3, hg]
  · constructor
    · intro hc
      exfalso
      rw [review_question_pass_region question symbol ph fin hne h3 hg] at hc
      by_cases hw : (guardWarnings (clean_text question) ph fin).1.isEmpty
      · rw [if_pos hw] at hc
        exact absurd hc.1 (show ("ok" : String) ≠ "reject" by decide)
      · rw [if_neg hw] at hc
        exact absurd hc.1 (show ("warn" : String) ≠ "reject" by decide)
    · intro hc
      exact absurd hc hg

/-- C7 witness: the all-punctuation input from the spec is rejected as
gibberish, and its character count indeed falls below the threshold. -/
theorem review_question_gibberish_check :
    (review_question "!!!???###@@@" "X" Option.none Option.none).level = "reject" ∧
    (review_question "!!!???###@@@" "X" Option.none Option.none).reason = "gibberish" :=
  (review_question_gibberish_iff "!!!???###@@@" "X" Option.none Option.none
    (by decide)).mpr (by decide)

/-- C8: the year-range check misfires.  For the question
`"2023年營收成長"` with a price history whose sole timestamp lies in
2023, the claim (and spec) requires no year-range warning — 2023 is
inside `[2023, 2023]` — yet the code extracts `re.findall`'s capture
group, `20`, as the question's "year", finds it out of range, and
returns a `warn` verdict. -/
theorem year_check_uses_capture_group :
    yearsInQ (clean_text "2023年營收成長") = [20] ∧
    dataYears (Option.some ⟨[Option.some 2023]⟩) Option.none = [2023] ∧
    (review_question "2023年營收成長" "TSM"
        (Option.some ⟨[Option.some 2023]⟩) Option.none).level = "warn" := by
  decide

/-- C9: every verdict has level `ok`, `warn` or `reject`, and a rejected
question carries an empty system hint and a nonempty message. -/
theorem review_question_invariants (question symbol : String)
    (ph : Option GuardHistory) (fin : Option GuardFinancials) :
    ((review_question question symbol ph fin).level = "ok" ∨
      (review_question question symbol ph fin).level = "warn" ∨
      (review_question question symbol ph fin).level = "reject") ∧
    ((review_question question symbol ph fin).level = "reject" →
      (review_question question symbol ph fin).system_hint = "" ∧
      (review_question question symbol ph fin).message ≠ "") := by
  by_cases h1 : clean_text question = ""
  · unfold review_question
    simp [h1]
    decide
  · by_cases h2 : (clean_text question).length ≤ 3
    · unfold review_question
      simp [h1, h2]
      decide
    · by_cases h3 : gibberishCond (clean_text question)
      · unfold review_question
        simp [h1, h2, h3]
        decide
      · rw [review_question_pass_region question symbol ph fin h1 h2 h3]
        by_cases hw : (guardWarnings (clean_text question) ph fin).1.isEmpty
        · rw [if_pos hw]
          exact ⟨Or.inl rfl,
            fun hc => absurd hc (show ("ok" : String) ≠ "reject" by decide)⟩
        · rw [if_neg hw]
          exact ⟨Or.inr (Or.inl rfl),
            fun hc => absurd hc (show ("warn" : String) ≠ "reject" by decide)⟩

/-- C9 witness: a rejected input indeed has empty hint and nonempty
message. -/
theorem review_question_invariants_check :
    (review_question "" "X" Option.none Option.none).system_hint = "" ∧
    (review_question "" "X" Option.none Option.none).message ≠ "" :=
  (review_question_invariants "" "X" Option.none Option.none).2 (by decide)

/-- C10: the verdict never depends on the `symbol` argument. -/
theorem review_question_symbol_irrelevant (question s₁ s₂ : String)
    (ph : Option GuardHistory) (fin : Option GuardFinancials) :
    review_question question s₁ ph fin = review_question question s₂ ph fin := rfl

end StockAI
